import Mathlib

set_option maxRecDepth 8000

/-!
Verification development for `whisperlivekit/gui_app.py`: a shallow
embedding of the GUI launcher's coordination logic (readiness probing,
server-thread supervision, bounded readiness waits, TLS configuration
validation, host normalization, and the presentation/shutdown flow),
together with theorems settling the specification's claims about it.
-/

namespace WLK

/-- Errors a single TCP connection attempt can produce: connection refused,
timeout elapsed, or name resolution (DNS) failure.  In the source these all
surface as Python exceptions caught by the bare `except Exception` clause of
`_is_port_open`. -/
inductive SockError where
  | refused
  | timedOut
  | dnsError
  deriving DecidableEq, Repr

/-- Embedding of `_is_port_open` (gui_app.py lines 10-17).  The outcome of the
single `sock.connect((host, port))` attempt - which already accounts for the
socket timeout set just before - is passed in as `connectResult`; the source
returns `True` when the connect call returns and `False` when it raises any
exception. -/
def is_port_open (connectResult : Except SockError Unit) : Bool :=
  match connectResult with
  | .ok _ => true
  | .error _ => false

/-- Observable events of the supervisor thread running `_run_server`
(gui_app.py lines 20-36). -/
inductive SupEvent where
  | startupCompleted
  | signalSet
  deriving DecidableEq, Repr

/-- Embedding of `startup_wrapper` (gui_app.py lines 29-32): it awaits the
server's original startup and, only when that returns normally, calls
`_startup_notify` which sets the `server_ready` event.  The result is the
trace of events the wrapper produced plus the exception it propagates, if
any: when `original_startup` raises, the wrapper re-raises before the notify
call is reached. -/
def startup_wrapper (originalStartup : Except String Unit) :
    List SupEvent × Option String :=
  match originalStartup with
  | .ok _ => ([SupEvent.startupCompleted, SupEvent.signalSet], none)
  | .error e => ([], some e)

/-- Abstract value of the server's `install_signal_handlers` attribute.
`original n` stands for the attribute as found on the live server object;
`noop` is the `lambda: None` the runner patches in. -/
inductive Handler where
  | original (id : Nat)
  | noop
  deriving DecidableEq, Repr

/-- The mutable server state touched by `_run_server`: the
`install_signal_handlers` attribute plus the rest of the server's state,
kept abstract. -/
structure Server (σ : Type) where
  install_signal_handlers : Handler
  rest : σ

/-- Embedding of `_run_server` (gui_app.py lines 20-36) as it acts on the
signal-handler attribute: it saves `original_install`, patches the attribute
to a no-op, runs the server (`run` acts on the rest of the state and may
raise, returning `some msg` in that case), and in the `finally` block
restores the saved attribute.  Returns the final server state and the
exception `server.run()` propagated, if any. -/
def run_server {σ : Type} (s : Server σ) (run : σ → σ × Option String) :
    Server σ × Option String :=
  let original_install := s.install_signal_handlers
  let patched : Server σ := { s with install_signal_handlers := Handler.noop }
  let runOut := run patched.rest
  ({ install_signal_handlers := original_install, rest := runOut.1 }, runOut.2)

/-- A bounded sleep-poll loop: `waitFrom obs fuel i` models
`for _ in range(fuel): if obs(i): break; sleep(d)` starting at iteration
index `i`, and returns the index at which the loop stopped checking - which
equals the number of sleeps performed when starting from `i = 0`. -/
def waitFrom (obs : Nat → Bool) : Nat → Nat → Nat
  | 0, i => i
  | fuel + 1, i => if obs i then i else waitFrom obs fuel (i + 1)

/-- Embedding of the Orchestrator's bounded readiness wait
(gui_app.py lines 86-89): up to 200 iterations, each checking
`server_ready.is_set() or _is_port_open(probe_host, args.port)` and
sleeping 0.05 s (50 ms) when the check fails.  `ready i` and `probe i` give
the two checks' values at iteration `i`; the result is the number of sleeps
performed. -/
def orchestrator_wait (ready probe : Nat → Bool) : Nat :=
  waitFrom (fun i => ready i || probe i) 200 0

/-- Actions the embedded view can observe from the background polling task. -/
inductive ViewAction where
  | loadUrl (url : String)
  deriving DecidableEq, Repr

/-- Embedding of `_wait_and_load` (gui_app.py lines 110-117): up to 1200
iterations, each checking `server_ready.is_set() or _is_port_open(...)` and
sleeping 0.1 s (100 ms) when the check fails; after the loop it calls
`window.load_url(base_url)` unconditionally.  Returns the number of sleeps
performed and the view actions issued. -/
def wait_and_load (ready probe : Nat → Bool) (base_url : String) :
    Nat × List ViewAction :=
  (waitFrom (fun i => ready i || probe i) 1200 0, [ViewAction.loadUrl base_url])

/-- Python truthiness of an optional string: `None` and the empty string are
falsy, every other string is truthy.  This is the test both
`os.environ.get(...)` consumers and `args.ssl_certfile or args.ssl_keyfile`
perform in the source. -/
def truthy : Option String → Bool
  | none => false
  | some s => !(s == "")

/-- Embedding of the VAC default override (gui_app.py lines 52-53):
`if not os.environ.get("WLK_GUI_ENABLE_VAC"): setattr(args, "no_vac", True)`.
`env` is the variable's value (`none` when unset) and `parsed` the `no_vac`
attribute as produced by argument parsing; the result is the attribute's
value after the override. -/
def resolve_no_vac (env : Option String) (parsed : Bool) : Bool :=
  if truthy env then parsed else true

/-- The exact message of the `ValueError` raised by the TLS pairing check
(gui_app.py line 67). -/
def sslPairingMsg : String :=
  "Both --ssl-certfile and --ssl-keyfile must be specified together."

/-- Embedding of the TLS configuration check (gui_app.py lines 65-71): when
either path is truthy but not both, raise `ValueError`; when both are
truthy, add the pair to the uvicorn kwargs; when neither is, add nothing.
The `Option` result mirrors whether `"ssl_certfile"` ends up a key of
`uvicorn_kwargs`. -/
def validate_ssl (cert key : Option String) :
    Except String (Option (String × String)) :=
  if truthy cert || truthy key then
    if !(truthy cert && truthy key) then
      Except.error sslPairingMsg
    else
      Except.ok (some (cert.getD "", key.getD ""))
  else
    Except.ok none

/-- Embedding of the scheme resolution (gui_app.py line 82):
`"https" if ("ssl_certfile" in uvicorn_kwargs) else "http"`. -/
def url_scheme (sslKwargs : Option (String × String)) : String :=
  if sslKwargs.isSome then "https" else "http"

/-- Actions of the orchestrating `main` function before, during and after
presentation. -/
inductive MainAction where
  | startServerThread
  | openEmbeddedView
  | openBrowser (url : String)
  | keepAliveLoop
  | setShouldExit
  | join (timeoutSecs : Nat) (completedWithinTimeout : Bool)
  deriving DecidableEq, Repr

/-- Result of the startup phase of `main` up to the creation of the
background server thread. -/
structure StartupPhase where
  actions : List MainAction
  scheme : Option String
  error : Option String
  deriving DecidableEq, Repr

/-- Embedding of `main`'s startup phase (gui_app.py lines 65-82): the TLS
pairing check runs first and aborts with a `ValueError` before the server
thread is created; otherwise the thread is started and the URL scheme is
resolved from whether the SSL kwargs were added. -/
def main_startup (cert key : Option String) : StartupPhase :=
  match validate_ssl cert key with
  | Except.error e => { actions := [], scheme := none, error := some e }
  | Except.ok ssl =>
      { actions := [MainAction.startServerThread]
        scheme := some (url_scheme ssl)
        error := none }

/-- The wildcard bind addresses recognized by the host normalization
(gui_app.py lines 83 and 85). -/
def wildcardHosts : List String := ["0.0.0.0", "::", "0:0:0:0:0:0:0:0"]

/-- Embedding of the display-host normalization (gui_app.py line 83):
`"localhost" if args.host in (...) else args.host`. -/
def display_host (host : String) : String :=
  if wildcardHosts.contains host then "localhost" else host

/-- Embedding of the probe-host normalization (gui_app.py line 85):
`"127.0.0.1" if args.host in (...) else args.host`. -/
def probe_host (host : String) : String :=
  if wildcardHosts.contains host then "127.0.0.1" else host

/-- Embedding of the DisplayTarget URL construction (gui_app.py line 84):
`f"{url_scheme}://{display_host}:{args.port}"`. -/
def base_url (scheme host : String) (port : Nat) : String :=
  scheme ++ "://" ++ display_host host ++ ":" ++ toString port

/-- How the browser-fallback keep-alive loop (gui_app.py lines 125-128)
ends: either the server thread is no longer alive, or a `KeyboardInterrupt`
is raised during the loop and caught by the `except KeyboardInterrupt: pass`
clause. -/
inductive FallbackEnd where
  | threadExited
  | interrupted
  deriving DecidableEq, Repr

/-- Embedding of `main`'s presentation and shutdown flow
(gui_app.py lines 92-136).  `embeddedOk` is whether the `webview` import,
window creation and `webview.start` all succeed (any failure is caught by
the `except Exception` clause and takes the browser fallback);
`fallbackEnd` is how the keep-alive loop ends on the fallback path;
`aliveAtFinally` is `server_thread.is_alive()` at the `finally` block;
`joinCompletes` is whether the join returns before its 5-second timeout
(the join itself returns either way).  Returns the action trace and the
exception propagated out of `main`, if any. -/
def presentation_and_shutdown (embeddedOk : Bool) (url : String)
    (fallbackEnd : FallbackEnd) (aliveAtFinally joinCompletes : Bool) :
    List MainAction × Option String :=
  let shutdown : List MainAction :=
    MainAction.setShouldExit ::
      (if aliveAtFinally then [MainAction.join 5 joinCompletes] else [])
  if embeddedOk then
    (MainAction.openEmbeddedView :: shutdown, none)
  else
    let loopPart : List MainAction :=
      match fallbackEnd with
      | FallbackEnd.threadExited => [MainAction.keepAliveLoop]
      | FallbackEnd.interrupted => [MainAction.keepAliveLoop]
    ((MainAction.openBrowser url :: loopPart) ++ shutdown, none)

/-- A character-list version of substring search, used to state that the
TLS error message names both flags: `leadsWith p s` holds when `p` is an
initial segment of `s`. -/
def leadsWith : List Char → List Char → Bool
  | [], _ => true
  | _ :: _, [] => false
  | p :: ps, c :: cs => p == c && leadsWith ps cs

/-- `hasSub p s` holds when `p` occurs contiguously inside `s`. -/
def hasSub (p : List Char) : List Char → Bool
  | [] => leadsWith p []
  | c :: cs => leadsWith p (c :: cs) || hasSub p cs

/-- `strContains s pat` holds when `pat` occurs as a contiguous substring of
`s`. -/
def strContains (s pat : String) : Bool :=
  hasSub pat.toList s.toList

/-! ## Lemmas about the bounded sleep-poll loop -/

/-- The loop index never advances past the fuel budget. -/
lemma waitFrom_le (obs : Nat → Bool) : ∀ fuel i, waitFrom obs fuel i ≤ i + fuel := by
  intro fuel
  induction fuel with
  | zero => intro i; simp [waitFrom]
  | succ n ih =>
      intro i
      simp only [waitFrom]
      split
      · omega
      · have h := ih (i + 1)
        omega

/-- Every iteration strictly before the stopping index observed a failing
check: the loop does not keep running past a success. -/
lemma waitFrom_not_before (obs : Nat → Bool) :
    ∀ fuel i j, i ≤ j → j < waitFrom obs fuel i → obs j = false := by
  intro fuel
  induction fuel with
  | zero =>
      intro i j hij hj
      simp [waitFrom] at hj
      omega
  | succ n ih =>
      intro i j hij hj
      simp only [waitFrom] at hj
      cases hob : obs i with
      | true =>
          rw [hob] at hj
          simp at hj
          omega
      | false =>
          rw [hob] at hj
          simp at hj
          rcases Nat.lt_or_ge i j with hlt | hge
          · exact ih (i + 1) j hlt hj
          · have hij' : i = j := Nat.le_antisymm hij hge
            exact hij' ▸ hob

/-- If the loop stopped before exhausting its fuel, the check succeeded at
the stopping index. -/
lemma waitFrom_stops (obs : Nat → Bool) :
    ∀ fuel i, waitFrom obs fuel i < i + fuel → obs (waitFrom obs fuel i) = true := by
  intro fuel
  induction fuel with
  | zero =>
      intro i h
      simp [waitFrom] at h
  | succ n ih =>
      intro i h
      simp only [waitFrom] at h ⊢
      cases hob : obs i with
      | true =>
          simpa using hob
      | false =>
          simp [hob] at h ⊢
          exact ih (i + 1) (by omega)

/-- When the check never succeeds, the loop runs its full budget. -/
lemma waitFrom_all_false (obs : Nat → Bool) (h : ∀ j, obs j = false) :
    ∀ fuel i, waitFrom obs fuel i = i + fuel := by
  intro fuel
  induction fuel with
  | zero => intro i; simp [waitFrom]
  | succ n ih =>
      intro i
      simp only [waitFrom, h i]
      rw [if_neg (by simp)]
      rw [ih (i + 1)]
      omega

/-! ## Claim theorems -/

/-- C1: the readiness hook installed by `_run_server` around the server's
startup sets the `server_ready` event exactly once, and only after the
original startup sequence has completed; when the original startup raises,
the wrapper propagates the exception and the event is never set. -/
theorem startup_wrapper_signal (o : Except String Unit) :
    (startup_wrapper o).1.count SupEvent.signalSet ≤ 1 ∧
    (SupEvent.signalSet ∈ (startup_wrapper o).1 →
      o = Except.ok () ∧
      SupEvent.startupCompleted ∈ (startup_wrapper o).1 ∧
      (startup_wrapper o).1.indexOf SupEvent.startupCompleted <
        (startup_wrapper o).1.indexOf SupEvent.signalSet ∧
      (startup_wrapper o).1.count SupEvent.signalSet = 1) ∧
    ((startup_wrapper o).2.isSome = true →
      (startup_wrapper o).1.count SupEvent.signalSet = 0 ∧
      SupEvent.signalSet ∉ (startup_wrapper o).1) := by
  cases o with
  | ok u =>
      cases u
      refine ⟨by decide, fun _ => ⟨rfl, by decide, by decide, by decide⟩, ?_⟩
      intro h
      simp [startup_wrapper] at h
  | error e =>
      refine ⟨by simp [startup_wrapper], ?_,
        fun _ => ⟨by simp [startup_wrapper], by simp [startup_wrapper]⟩⟩
      intro h
      simp [startup_wrapper] at h

/-- Witness for C1 at concrete startup outcomes: a successful startup sets
the signal exactly once, a failing startup never sets it. -/
theorem startup_wrapper_signal_witness :
    (startup_wrapper (Except.ok ())).1.count SupEvent.signalSet = 1 ∧
    (startup_wrapper (Except.error "boom")).1.count SupEvent.signalSet = 0 :=
  ⟨((startup_wrapper_signal (Except.ok ())).2.1 (by decide)).2.2.2,
   ((startup_wrapper_signal (Except.error "boom")).2.2 rfl).1⟩

/-- C2: the Orchestrator's readiness wait performs at most 200 poll
iterations with 50 ms sleeps (at most 10000 ms of sleeping), never sleeps
past the first iteration at which the ready event is set or the port probe
succeeds, exits as soon as either holds when that happens within the
budget, and still terminates - after exactly 200 iterations - when neither
ever holds. -/
theorem orchestrator_wait_bounded (ready probe : Nat → Bool) :
    orchestrator_wait ready probe ≤ 200 ∧
    50 * orchestrator_wait ready probe ≤ 10000 ∧
    (∀ j, j < orchestrator_wait ready probe → ready j = false ∧ probe j = false) ∧
    (orchestrator_wait ready probe < 200 →
      ready (orchestrator_wait ready probe) = true ∨
      probe (orchestrator_wait ready probe) = true) ∧
    ((∀ j, ready j = false ∧ probe j = false) →
      orchestrator_wait ready probe = 200) := by
  have h1 : orchestrator_wait ready probe ≤ 200 := by
    simpa [orchestrator_wait] using waitFrom_le (fun i => ready i || probe i) 200 0
  refine ⟨h1, by omega, ?_, ?_, ?_⟩
  · intro j hj
    have h2 := waitFrom_not_before (fun i => ready i || probe i) 200 0 j
      (Nat.zero_le j) (by simpa [orchestrator_wait] using hj)
    simpa using h2
  · intro hlt
    have h3 := waitFrom_stops (fun i => ready i || probe i) 200 0
      (by simpa [orchestrator_wait] using hlt)
    simpa [orchestrator_wait] using h3
  · intro hall
    have h4 := waitFrom_all_false (fun i => ready i || probe i)
      (fun j => by simp [(hall j).1, (hall j).2]) 200 0
    simpa [orchestrator_wait] using h4

/-- Witness for C2: with the ready event set from iteration 3 on, the wait
stops within the budget; with neither condition ever holding, it performs
exactly 200 iterations. -/
theorem orchestrator_wait_bounded_witness :
    orchestrator_wait (fun i => decide (3 ≤ i)) (fun _ => false) ≤ 200 ∧
    orchestrator_wait (fun _ => false) (fun _ => false) = 200 :=
  ⟨(orchestrator_wait_bounded (fun i => decide (3 ≤ i)) (fun _ => false)).1,
   (orchestrator_wait_bounded (fun _ => false) (fun _ => false)).2.2.2.2
     (fun _ => ⟨rfl, rfl⟩)⟩

/-- C4: `_is_port_open` always returns a boolean (in this embedding it is a
total function into `Bool`, mirroring the bare `except Exception` that
swallows every failure): it returns true exactly when the single connection
attempt succeeds, and false exactly when the attempt fails in any way
(refused, timeout, DNS error). -/
theorem is_port_open_spec (r : Except SockError Unit) :
    (is_port_open r = true ↔ r = Except.ok ()) ∧
    (is_port_open r = false ↔ ∃ e, r = Except.error e) := by
  cases r with
  | ok u =>
      cases u
      simp [is_port_open]
  | error e =>
      simp [is_port_open]

/-- Witness for C4 at concrete connection outcomes: success yields true, a
refused connection yields false. -/
theorem is_port_open_spec_witness :
    is_port_open (Except.ok ()) = true ∧
    is_port_open (Except.error SockError.refused) = false :=
  ⟨(is_port_open_spec (Except.ok ())).1.mpr rfl,
   (is_port_open_spec (Except.error SockError.refused)).2.mpr ⟨_, rfl⟩⟩

/-- C9: after `_run_server` returns, the server's
`install_signal_handlers` attribute is restored to its original value on
every exit path - the `finally` block runs whether `server.run()` returned
normally or raised, and the exception, if any, propagates unchanged. -/
theorem run_server_restores_handlers {σ : Type} (s : Server σ)
    (run : σ → σ × Option String) :
    (run_server s run).1.install_signal_handlers = s.install_signal_handlers ∧
    (run_server s run).2 = (run s.rest).2 ∧
    ((run s.rest).2.isSome = true →
      (run_server s run).1.install_signal_handlers = s.install_signal_handlers) := by
  refine ⟨rfl, rfl, fun _ => rfl⟩

/-- Witness for C9: a run that raises still leaves the original
signal-handler attribute restored. -/
theorem run_server_restores_handlers_witness :
    (run_server { install_signal_handlers := Handler.original 7, rest := (0 : Nat) }
      (fun n => (n + 1, some "boom"))).1.install_signal_handlers =
      Handler.original 7 :=
  (run_server_restores_handlers
    { install_signal_handlers := Handler.original 7, rest := (0 : Nat) }
    (fun n => (n + 1, some "boom"))).2.2 rfl

/-- C3: a `KeyboardInterrupt` caught during the browser-fallback keep-alive
loop leads to the same shutdown path as a normal loop exit: the trace is
identical, no exception propagates out of `main`, and - whenever the server
thread is still alive at the `finally` block - the stop flag is set and
then the thread is joined with a 5-second timeout, the join returning
whether or not it completed within the timeout. -/
theorem interrupt_same_shutdown (url : String) (alive jc : Bool) :
    presentation_and_shutdown false url FallbackEnd.interrupted alive jc =
      presentation_and_shutdown false url FallbackEnd.threadExited alive jc ∧
    (presentation_and_shutdown false url FallbackEnd.interrupted alive jc).2 = none ∧
    (alive = true →
      (presentation_and_shutdown false url FallbackEnd.interrupted alive jc).1 =
        [MainAction.openBrowser url, MainAction.keepAliveLoop,
         MainAction.setShouldExit, MainAction.join 5 jc]) := by
  refine ⟨rfl, rfl, ?_⟩
  intro h
  subst h
  rfl

/-- Witness for C3: with the thread alive at the `finally` block and a join
that times out, the interrupted path still ends with stop-then-join. -/
theorem interrupt_same_shutdown_witness :
    (presentation_and_shutdown false "u" FallbackEnd.interrupted true false).1 =
      [MainAction.openBrowser "u", MainAction.keepAliveLoop,
       MainAction.setShouldExit, MainAction.join 5 false] :=
  (interrupt_same_shutdown "u" true false).2.2 rfl

/-- C5 counterexample: with polls that never observe reachability (both the
ready event and the port probe fail at every one of the 1200 iterations),
`_wait_and_load` exhausts its full budget and still navigates the view to
the DisplayTarget URL - so navigation is not conditional on reachability
having been observed. -/
theorem wait_and_load_navigates_on_timeout :
    (∀ i, ((fun _ : Nat => false) i || (fun _ : Nat => false) i) = false) ∧
    (wait_and_load (fun _ => false) (fun _ => false) "http://localhost:8000").1 = 1200 ∧
    (wait_and_load (fun _ => false) (fun _ => false) "http://localhost:8000").2 =
      [ViewAction.loadUrl "http://localhost:8000"] := by
  refine ⟨fun _ => rfl, by decide, by decide⟩

/-- C5 amended: `_wait_and_load` polls with a budget of 1200 iterations of
100 ms sleeps (at most 120000 ms, about 120 s), never sleeps past the first
iteration at which reachability is observed, and performs exactly one
navigation to the DisplayTarget URL - after reachability is observed when
that happens within the budget, and after the budget is exhausted
otherwise. -/
theorem wait_and_load_spec (ready probe : Nat → Bool) (u : String) :
    (wait_and_load ready probe u).2 = [ViewAction.loadUrl u] ∧
    (wait_and_load ready probe u).1 ≤ 1200 ∧
    100 * (wait_and_load ready probe u).1 ≤ 120000 ∧
    (∀ j, j < (wait_and_load ready probe u).1 →
      ready j = false ∧ probe j = false) ∧
    ((wait_and_load ready probe u).1 < 1200 →
      ready (wait_and_load ready probe u).1 = true ∨
      probe (wait_and_load ready probe u).1 = true) := by
  have h1 : (wait_and_load ready probe u).1 ≤ 1200 := by
    simpa [wait_and_load] using waitFrom_le (fun i => ready i || probe i) 1200 0
  refine ⟨rfl, h1, by omega, ?_, ?_⟩
  · intro j hj
    have h2 := waitFrom_not_before (fun i => ready i || probe i) 1200 0 j
      (Nat.zero_le j) (by simpa [wait_and_load] using hj)
    simpa using h2
  · intro hlt
    have h3 := waitFrom_stops (fun i => ready i || probe i) 1200 0
      (by simpa [wait_and_load] using hlt)
    simpa [wait_and_load] using h3

/-- Witness for C5 amended: with the ready event set from iteration 2 on,
the poll stops within the budget and reachability holds at the stopping
iteration. -/
theorem wait_and_load_spec_witness :
    (fun i => decide (2 ≤ i))
        (wait_and_load (fun i => decide (2 ≤ i)) (fun _ => false) "u").1 = true ∨
    (fun _ : Nat => false)
        (wait_and_load (fun i => decide (2 ≤ i)) (fun _ => false) "u").1 = true :=
  (wait_and_load_spec (fun i => decide (2 ≤ i)) (fun _ => false) "u").2.2.2.2
    (by decide)

/-- C6: when exactly one of the TLS certificate and key paths is supplied,
`main`'s startup phase aborts with the `ValueError` naming both required
flags and the server thread is never created; and the resolved scheme is
"https" exactly when both paths are supplied. -/
theorem ssl_pairing_and_scheme (cert key : Option String) :
    (truthy cert ≠ truthy key →
      (main_startup cert key).error = some sslPairingMsg ∧
      (main_startup cert key).actions = [] ∧
      MainAction.startServerThread ∉ (main_startup cert key).actions ∧
      strContains sslPairingMsg "--ssl-certfile" = true ∧
      strContains sslPairingMsg "--ssl-keyfile" = true) ∧
    ((main_startup cert key).scheme = some "https" ↔
      truthy cert = true ∧ truthy key = true) := by
  constructor
  · intro hne
    have hcase : (truthy cert = true ∧ truthy key = false) ∨
        (truthy cert = false ∧ truthy key = true) := by
      cases hc : truthy cert <;> cases hk : truthy key <;> simp_all
    have hval : validate_ssl cert key = Except.error sslPairingMsg := by
      rcases hcase with ⟨hc, hk⟩ | ⟨hc, hk⟩ <;> simp [validate_ssl, hc, hk]
    refine ⟨?_, ?_, ?_, by decide, by decide⟩ <;> simp [main_startup, hval]
  · cases hc : truthy cert <;> cases hk : truthy key <;>
      simp [main_startup, validate_ssl, url_scheme, hc, hk]

/-- Witness for C6: supplying only a certificate path aborts with the
pairing error before any thread-start action, and the message names the
certificate flag. -/
theorem ssl_pairing_and_scheme_witness :
    (main_startup (some "cert.pem") none).error = some sslPairingMsg ∧
    (main_startup (some "cert.pem") none).actions = [] ∧
    strContains sslPairingMsg "--ssl-certfile" = true :=
  ⟨((ssl_pairing_and_scheme (some "cert.pem") none).1 (by decide)).1,
   ((ssl_pairing_and_scheme (some "cert.pem") none).1 (by decide)).2.1,
   ((ssl_pairing_and_scheme (some "cert.pem") none).1 (by decide)).2.2.2.1⟩

/-- C7: for host "0.0.0.0", scheme "http" and port 8000, the DisplayTarget
URL is exactly "http://localhost:8000" and the probed host is the loopback
address "127.0.0.1", not the wildcard address; for every non-wildcard host,
both the displayed and the probed host are the configured host itself. -/
theorem display_target_normalization :
    base_url "http" "0.0.0.0" 8000 = "http://localhost:8000" ∧
    probe_host "0.0.0.0" = "127.0.0.1" ∧
    probe_host "0.0.0.0" ≠ "0.0.0.0" ∧
    (∀ h : String, wildcardHosts.contains h = false →
      display_host h = h ∧ probe_host h = h) := by
  refine ⟨by decide, by decide, by decide, ?_⟩
  intro h hw
  have hmem : h ∉ wildcardHosts := by simpa using hw
  constructor <;> simp [display_host, probe_host, hmem]

/-- Witness for C7 at a concrete non-wildcard host: display and probe leave
it unchanged. -/
theorem display_target_normalization_witness :
    display_host "192.168.1.5" = "192.168.1.5" ∧
    probe_host "192.168.1.5" = "192.168.1.5" :=
  display_target_normalization.2.2.2 "192.168.1.5" (by decide)

/-- C8: when the embedded-view attempt fails for any reason (capability
absent or creation error, i.e. `embeddedOk = false`), the presentation flow
opens the DisplayTarget in the default browser as its first action, runs
the keep-alive loop, and never propagates the failure to its caller -
regardless of how the loop ends or the shutdown unfolds. -/
theorem fallback_on_embedded_failure (url : String) (fe : FallbackEnd)
    (alive jc : Bool) :
    (presentation_and_shutdown false url fe alive jc).2 = none ∧
    (presentation_and_shutdown false url fe alive jc).1.head? =
      some (MainAction.openBrowser url) ∧
    MainAction.keepAliveLoop ∈ (presentation_and_shutdown false url fe alive jc).1 := by
  cases fe <;> simp [presentation_and_shutdown]

/-- C10: when the WLK_GUI_ENABLE_VAC environment variable is unset or set
to the empty string, the parsed arguments' `no_vac` attribute is forced to
true; when it is set to any non-empty value, the attribute keeps exactly
its parsed value. -/
theorem resolve_no_vac_spec (env : Option String) (parsed : Bool) :
    ((env = none ∨ env = some "") → resolve_no_vac env parsed = true) ∧
    (∀ s : String, s ≠ "" → env = some s → resolve_no_vac env parsed = parsed) := by
  constructor
  · rintro (rfl | rfl) <;> simp [resolve_no_vac, truthy]
  · rintro s hs rfl
    simp [resolve_no_vac, truthy, hs]

/-- Witness for C10 at concrete environment values: unset and empty force
`no_vac` to true; a non-empty value leaves the parsed value alone. -/
theorem resolve_no_vac_spec_witness :
    resolve_no_vac none false = true ∧
    resolve_no_vac (some "") false = true ∧
    resolve_no_vac (some "1") false = false :=
  ⟨(resolve_no_vac_spec none false).1 (Or.inl rfl),
   (resolve_no_vac_spec (some "") false).1 (Or.inr rfl),
   (resolve_no_vac_spec (some "1") false).2 "1" (by decide) rfl⟩

end WLK
